import Mathlib

/-!
Verification development for the F1LiveDashboard live-data pipeline.

Shallow embedding of `src/backend/redis_live_service.py` (Snapshot Cache,
Session Detector, Snapshot Transformer, Poll Scheduler) and
`src/backend/data_service.py` (Unified Read Facade).

Modelling conventions:
- machine floats that are only passed through (never computed with) are
  carried as `Int`;
- timestamps are UTC seconds carried as `Int` (detector) or `Nat` (cache
  last-update clock);
- pandas missing values (`pd.isna` / `pd.notna`) are `Option`;
- a raw cell that is present but fails a numeric conversion
  (`int(...)` / `float(...)` raising `ValueError`) is `RawField.malformed`;
- Python exceptions are `Except Unit` or explicit fault flags.
-/

namespace F1Live

/-! ## JSON values

Values exchanged with the Redis cache.  `store_data` serialises a Python
object with `json.dumps`; `get_data` parses it back with `json.loads`.
We model the serialisable Python objects directly. -/

inductive JVal where
  | null
  | bool (b : Bool)
  | num (n : Int)
  | str (s : String)
  | arr (xs : List JVal)
  | obj (fields : List (String × JVal))

/-- A raw Redis cell: either the serialisation of a JSON value (never the
empty string, since `json.dumps` output is non-empty) or a raw empty
string written by some other client.  `get_data` checks the truthiness of
the raw string before parsing, so the two cases behave differently only
in principle — both end up as Python `None`. -/
inductive Cell where
  | emptyStr
  | stored (v : JVal)

/-! ## Association-list key/value store -/

def lookupKey {α : Type} : List (String × α) → String → Option α
  | [], _ => none
  | (k, v) :: rest, key => if k = key then some v else lookupKey rest key

def setKey {α : Type} : List (String × α) → String → α → List (String × α)
  | [], key, v => [(key, v)]
  | (k, w) :: rest, key, v =>
    if k = key then (key, v) :: rest else (k, w) :: setKey rest key v

def delKey {α : Type} : List (String × α) → String → List (String × α)
  | [], _ => []
  | (k, w) :: rest, key =>
    if k = key then delKey rest key else (k, w) :: delKey rest key

/-! ## Redis cache state and key layout (redis_live_service.py lines 32-43) -/

def KEY_PREFIX : String := "f1_live:"
def STANDINGS_KEY : String := KEY_PREFIX ++ "standings"
def TIMING_KEY : String := KEY_PREFIX ++ "timing"
def WEATHER_KEY : String := KEY_PREFIX ++ "weather"
def TIRES_KEY : String := KEY_PREFIX ++ "tires"
def SESSION_KEY : String := KEY_PREFIX ++ "session"
def STATUS_KEY : String := KEY_PREFIX ++ "status"
def LAST_UPDATE_KEY : String := KEY_PREFIX ++ "last_update"

def DATA_TTL : Nat := 3600

structure RedisState where
  store : List (String × Cell)
  ttl : List (String × Nat)

/-- A Redis `SET` (without `KEEPTTL`) replaces the value and clears any
existing expiry on the key. -/
def redisSet (st : RedisState) (key : String) (v : Cell) : RedisState :=
  { store := setKey st.store key v, ttl := delKey st.ttl key }

/-- A Redis `EXPIRE key seconds`. -/
def redisExpire (st : RedisState) (key : String) (t : Nat) : RedisState :=
  { st with ttl := setKey st.ttl key t }

/-- Fault injection for the three client calls inside `store_data` plus the
initial `json.dumps`; each flag set means that call raises.  A raising
call is modelled as leaving the store untouched (the exception happens at
the client boundary). -/
structure Faults where
  dumpsFail : Bool
  setFail : Bool
  expireFail : Bool
  lastUpdateFail : Bool
deriving DecidableEq, Repr

def noFaults : Faults :=
  { dumpsFail := false, setFail := false, expireFail := false, lastUpdateFail := false }

/-- Embedding of `RedisLiveDataService.store_data` (lines 71-87):
serialise, `SET key`, optionally `EXPIRE key DATA_TTL`, then `SET` the
global last-update timestamp; return `True`.  Any exception is caught and
`False` is returned, with whatever writes already happened left in place.
`now` is the wall clock sampled by `datetime.now().isoformat()`. -/
def store_data (f : Faults) (now : Nat) (st : RedisState) (key : String)
    (data : JVal) (expire : Bool) : Bool × RedisState :=
  if f.dumpsFail then (false, st)
  else if f.setFail then (false, st)
  else
    let st1 := redisSet st key (Cell.stored data)
    if expire ∧ f.expireFail then (false, st1)
    else
      let st2 := if expire then redisExpire st1 key DATA_TTL else st1
      if f.lastUpdateFail then (false, st2)
      else (true, redisSet st2 LAST_UPDATE_KEY (Cell.stored (JVal.str (toString now))))

/-- Embedding of `RedisLiveDataService.get_data` (lines 89-98):
`data = redis.get(key)`; `if data: return json.loads(data)`; else `None`.
An absent key and an empty string are falsy; a stored `"null"` parses to
Python `None`.  The returned Python object is `none` exactly in those
three cases. -/
def get_data (st : RedisState) (key : String) : Option JVal :=
  match lookupKey st.store key with
  | none => none
  | some Cell.emptyStr => none
  | some (Cell.stored v) => match v with
    | JVal.null => none
    | v => some v

/-- Embedding of `get_live_session` (lines 373-375). -/
def get_live_session (st : RedisState) : Option JVal :=
  get_data st SESSION_KEY

/-! ## Session Detector (redis_live_service.py lines 100-161)

The FastF1 schedule row has columns `Session1`..`Session5` (names) and
`Session1DateUtc`..`Session5DateUtc` (UTC start times, possibly NaT).
Times are UTC seconds as `Int`. -/

structure SubSession where
  name : String
  dateUtc : Option Int
deriving DecidableEq, Repr

/-- One row of the remaining-events schedule.  The source reads the year
as `EventDate.year`; we carry that component as its own field next to the
`EventDate` timestamp. -/
structure CalEvent where
  eventDateYear : Int
  roundNumber : Int
  eventName : String
  eventDate : Int
  s1 : SubSession
  s2 : SubSession
  s3 : SubSession
  s4 : SubSession
  s5 : SubSession
deriving DecidableEq, Repr

def slots (e : CalEvent) : List SubSession := [e.s1, e.s2, e.s3, e.s4, e.s5]

def fourHours : Int := 4 * 3600
def twoDays : Int := 2 * 86400

/-- The session dict built by `detect_current_session`.  The live variant
carries `end_time`; the upcoming variant omits that key (here `none`) and
may have a `None` start time when `Session1DateUtc` is NaT. -/
structure SessionInfo where
  year : Int
  round : Int
  event_name : String
  session_name : String
  session_type : String
  start_time : Option Int
  end_time : Option Int
  is_live : Bool
deriving DecidableEq, Repr

/-- The per-slot loop of lines 120-144: skip slots whose `DateUtc` is NaT
(`pd.isna` → `continue`); the first slot with
`now >= session_date and now <= session_date + 4h` (a closed window) is
returned together with its start time. -/
def findLiveSlot (now : Int) : List SubSession → Option (SubSession × Int)
  | [] => none
  | s :: rest =>
    match s.dateUtc with
    | none => findLiveSlot now rest
    | some d =>
      if d ≤ now ∧ now ≤ d + fourHours then some (s, d) else findLiveSlot now rest

/-- The live dict of lines 135-144.  `session_type` is the provider's
canonical `session.name` for the slot; the provider metadata lookup of
lines 132-133 is modelled as returning the slot's own name. -/
def liveFrom (e : CalEvent) (s : SubSession) (d : Int) : SessionInfo :=
  { year := e.eventDateYear, round := e.roundNumber, event_name := e.eventName,
    session_name := s.name, session_type := s.name,
    start_time := some d, end_time := some (d + fourHours), is_live := true }

/-- The upcoming dict of lines 148-156: always references the `Session1`
slot, whatever its start time. -/
def upcomingFrom (e : CalEvent) : SessionInfo :=
  { year := e.eventDateYear, round := e.roundNumber, event_name := e.eventName,
    session_name := "Next: " ++ e.s1.name, session_type := e.s1.name,
    start_time := e.s1.dateUtc, end_time := none, is_live := false }

/-- Embedding of `detect_current_session`.  `remaining` is the answer of
`fastf1.get_events_remaining(now)`; the nearest event is its first row.
An empty schedule returns `None`; otherwise the slot loop runs, and if no
slot matches, the event qualifies as upcoming when
`event_date - now <= timedelta(days=2)` — a test on the event date, not
on the first sub-session's start time. -/
def detect_current_session (now : Int) (remaining : List CalEvent) : Option SessionInfo :=
  match remaining with
  | [] => none
  | e :: _ =>
    match findLiveSlot now (slots e) with
    | some (s, d) => some (liveFrom e s d)
    | none =>
      if e.eventDate - now ≤ twoDays then some (upcomingFrom e) else none

/-- Boolean form of the source's closed-window test for one slot. -/
def inWindowClosed (now : Int) (s : SubSession) : Bool :=
  match s.dateUtc with
  | none => false
  | some d => decide (d ≤ now ∧ now ≤ d + fourHours)

/-! ## Snapshot Transformer (redis_live_service.py lines 209-315)

A provider cell is NA (`pd.notna` is false), a well-formed value, or a
present-but-unparseable value on which a numeric conversion
(`int(...)` / `float(...)`) raises `ValueError`.  Only the `Position` and
`Points` columns of the result set go through such a conversion; the
remaining result columns pass through `str(...)` or are copied raw, which
cannot raise, so they are carried as `Option`. -/

inductive RawField (α : Type) where
  | na
  | val (a : α)
  | malformed
deriving DecidableEq, Repr

/-- `int(x)` / `float(x)` guarded by `pd.notna(x)`: NA becomes `None`,
a value converts, an unparseable cell raises. -/
def convNum {α : Type} : RawField α → Except Unit (Option α)
  | RawField.na => Except.ok none
  | RawField.val a => Except.ok (some a)
  | RawField.malformed => Except.error ()

/-- NA-dropping read used where no raising conversion exists. -/
def toOpt {α : Type} : RawField α → Option α
  | RawField.na => none
  | RawField.val a => some a
  | RawField.malformed => none

/-- One row of `session.results` as read by the standings loop. -/
structure RawResult where
  position : RawField Int
  driverNumber : String
  abbreviation : String
  fullName : String
  teamName : String
  teamColor : String
  q1 : Option String
  q2 : Option String
  q3 : Option String
  time : Option String
  status : Option String
  points : RawField Int
deriving DecidableEq, Repr

/-- The normalized standings row (the `driver_data` dict, lines 216-229). -/
structure DriverData where
  position : Option Int
  driver_number : String
  driver_abbr : String
  driver_name : String
  team : String
  team_color : String
  q1 : Option String
  q2 : Option String
  q3 : Option String
  time : Option String
  status : Option String
  points : Option Int
deriving DecidableEq, Repr

/-- Total normalization of a row whose numeric cells do not raise. -/
def normalizeTotal (r : RawResult) : DriverData :=
  { position := toOpt r.position, driver_number := r.driverNumber,
    driver_abbr := r.abbreviation, driver_name := r.fullName,
    team := r.teamName, team_color := r.teamColor,
    q1 := r.q1, q2 := r.q2, q3 := r.q3, time := r.time, status := r.status,
    points := toOpt r.points }

/-- Building one `driver_data` dict; raises if `int(Position)` or
`float(Points)` raises. -/
def normalizeResult (r : RawResult) : Except Unit DriverData :=
  match convNum r.position with
  | Except.error e => Except.error e
  | Except.ok pos =>
    match convNum r.points with
    | Except.error e => Except.error e
    | Except.ok pts =>
      Except.ok { position := pos, driver_number := r.driverNumber,
                  driver_abbr := r.abbreviation, driver_name := r.fullName,
                  team := r.teamName, team_color := r.teamColor,
                  q1 := r.q1, q2 := r.q2, q3 := r.q3, time := r.time,
                  status := r.status, points := pts }

/-- The standings loop (lines 213-230): one row per result, in order;
there is no per-row exception handler, so the first raising row aborts
the whole list. -/
def processStandings : List RawResult → Except Unit (List DriverData)
  | [] => Except.ok []
  | r :: rs =>
    match normalizeResult r with
    | Except.error e => Except.error e
    | Except.ok d =>
      match processStandings rs with
      | Except.error e => Except.error e
      | Except.ok ds => Except.ok (d :: ds)

/-- One row of `session.laps`.  `LapNumber` is numeric in provider data;
the non-numeric cells are carried as `Option` (NA or value). -/
structure RawLap where
  driverAbbr : String
  lapNumber : Int
  lapTime : Option String
  sector1 : Option String
  sector2 : Option String
  sector3 : Option String
  isPersonalBest : Option Bool
  compound : Option String
  tyreLife : Option Int
  trackStatus : Option String
  stint : Option Int
  freshTyre : Option Bool
deriving DecidableEq, Repr

/-- The normalized timing row (the `lap_data` dict, lines 244-255). -/
structure TimingEntry where
  driver_abbr : String
  lap_number : Option Int
  lap_time : Option String
  sector1 : Option String
  sector2 : Option String
  sector3 : Option String
  is_personal_best : Bool
  compound : Option String
  tyre_life : Option Int
  track_status : Option String
deriving DecidableEq, Repr

/-- `session.laps.pick_driver(abbr)`: the driver's laps, in lap order. -/
def pickDriver (laps : List RawLap) (abbr : String) : List RawLap :=
  laps.filter fun l => l.driverAbbr = abbr

/-- Step of the maximum-lap-number selection. -/
def laterLap (a b : RawLap) : RawLap :=
  if a.lapNumber < b.lapNumber then b else a

/-- Models `sort_values(by='LapNumber', ascending=False).iloc[0]` on a
non-empty frame: an element with the greatest `LapNumber` (lap numbers
are unique per driver in provider data; on ties, which the unstable sort
leaves unspecified, the first occurrence is taken). -/
def lastLap : List RawLap → Option RawLap
  | [] => none
  | l :: ls => some (ls.foldl laterLap l)

/-- The `lap_data` dict for a driver's selected lap.  Note: no condition
on `LapTime` being present — a lap without a recorded time is published
with `lap_time = None`. -/
def timingEntryOf (abbr : String) (ll : RawLap) : TimingEntry :=
  { driver_abbr := abbr, lap_number := some ll.lapNumber, lap_time := ll.lapTime,
    sector1 := ll.sector1, sector2 := ll.sector2, sector3 := ll.sector3,
    is_personal_best := ll.isPersonalBest.getD false, compound := ll.compound,
    tyre_life := ll.tyreLife, track_status := ll.trackStatus }

/-- The timing loop (lines 236-256): for each abbreviation in the result
set, take the driver's laps sorted by descending lap number; if any
exist, publish the first. -/
def processTiming : List RawResult → List RawLap → List TimingEntry
  | [], _ => []
  | r :: rs, laps =>
    match lastLap (pickDriver laps r.abbreviation) with
    | none => processTiming rs laps
    | some ll => timingEntryOf r.abbreviation ll :: processTiming rs laps

/-- The tire aggregate (the `tire_data` dict, lines 271-276). -/
structure TireData where
  compound : Option String
  life : Option Int
  age : Nat
  fresh : Option Bool
deriving DecidableEq, Repr

/-- `driver_laps['Stint'].max()` with NA skipped; `0` when every stint is
NA (`pd.notna(nan)` is false). -/
def maxStint (laps : List RawLap) : Int :=
  match laps.filterMap (fun l => l.stint) with
  | [] => 0
  | s :: ss => ss.foldl (fun a b => if a < b then b else a) s

/-- `current_tires['TyreLife'].max()` with NA skipped; `None` when every
cell is NA. -/
def maxTyreLife (laps : List RawLap) : Option Int :=
  match laps.filterMap (fun l => l.tyreLife) with
  | [] => none
  | t :: ts => some (ts.foldl (fun a b => if a < b then b else a) t)

/-- The tire loop (lines 262-277): laps of the driver's maximal stint,
aggregated; drivers with no laps, or no lap in the computed stint, are
skipped.  Insertion order of the dict follows the result set. -/
def processTires : List RawResult → List RawLap → List (String × TireData)
  | [], _ => []
  | r :: rs, laps =>
    let dl := pickDriver laps r.abbreviation
    if dl.isEmpty then processTires rs laps
    else
      let cs := maxStint dl
      match dl.filter (fun l => l.stint = some cs) with
      | [] => processTires rs laps
      | first :: others =>
        (r.abbreviation,
          { compound := first.compound,
            life := maxTyreLife (first :: others),
            age := (first :: others).length,
            fresh := first.freshTyre }) :: processTires rs laps

/-- One row of `session.weather_data`; `timestamp` is the row index. -/
structure RawWeather where
  airTemp : Option Int
  trackTemp : Option Int
  humidity : Option Int
  pressure : Option Int
  windSpeed : Option Int
  windDirection : Option Int
  rainfall : Option Bool
  timestamp : Option Int
deriving DecidableEq, Repr

/-- The normalized weather dict (lines 286-295). -/
structure NormWeather where
  air_temp : Option Int
  track_temp : Option Int
  humidity : Option Int
  pressure : Option Int
  wind_speed : Option Int
  wind_direction : Option Int
  rainfall : Bool
  timestamp : Option Int
deriving DecidableEq, Repr

/-- Lines 283-298: most recent reading (`iloc[-1]`) if any rows exist. -/
def processWeather (rows : List RawWeather) : Option NormWeather :=
  match rows.getLast? with
  | none => none
  | some w =>
    some { air_temp := w.airTemp, track_temp := w.trackTemp,
           humidity := w.humidity, pressure := w.pressure,
           wind_speed := w.windSpeed, wind_direction := w.windDirection,
           rainfall := w.rainfall.getD false, timestamp := w.timestamp }

structure RawStatusRow where
  status : String
  timestamp : Option Int
deriving DecidableEq, Repr

structure NormStatus where
  status : String
  status_message : String
  timestamp : Option Int
deriving DecidableEq, Repr

/-- Embedding of `_translate_track_status` (lines 317-328). -/
def translate_track_status (s : String) : String :=
  if s = "1" then "Track Clear"
  else if s = "2" then "Yellow Flag"
  else if s = "3" then "Safety Car Deployed"
  else if s = "4" then "Red Flag/Session Stopped"
  else if s = "5" then "Virtual Safety Car Deployed"
  else if s = "6" then "Virtual Safety Car Ending"
  else "Unknown Status: " ++ s

/-- Lines 301-311: most recent track-status reading, if any. -/
def processStatus (rows : List RawStatusRow) : Option NormStatus :=
  match rows.getLast? with
  | none => none
  | some r =>
    some { status := r.status, status_message := translate_track_status r.status,
           timestamp := r.timestamp }

/-- The raw provider session handed to `_process_live_session`; an absent
or `None` `weather_data` / `track_status` attribute is the empty list. -/
structure RawSession where
  results : List RawResult
  laps : List RawLap
  weather : List RawWeather
  trackStatus : List RawStatusRow
deriving DecidableEq, Repr

/-- The contents of the five category keys, decoded.  `none` means the
key holds no record. -/
structure LiveSnapshot where
  standings : Option (List DriverData)
  timing : Option (List TimingEntry)
  tires : Option (List (String × TireData))
  weather : Option NormWeather
  status : Option NormStatus
deriving DecidableEq, Repr

def emptySnap : LiveSnapshot :=
  { standings := none, timing := none, tires := none, weather := none, status := none }

/-- Embedding of `_process_live_session`: the categories are computed and
stored in sequence inside a single `try`; an exception while building the
standings list is caught at line 314, so nothing at all is stored for the
cycle (the standings loop precedes the first `store_data` call). -/
def process_live_session (s : RawSession) (snap : LiveSnapshot) : LiveSnapshot :=
  match processStandings s.results with
  | Except.error _ => snap
  | Except.ok st =>
    let snap1 := { snap with standings := some st }
    let snap2 := { snap1 with timing := some (processTiming s.results s.laps) }
    let snap3 := { snap2 with tires := some (processTires s.results s.laps) }
    let snap4 :=
      match processWeather s.weather with
      | none => snap3
      | some w => { snap3 with weather := some w }
    match processStatus s.trackStatus with
    | none => snap4
    | some t => { snap4 with status := some t }

/-- Whether a lap has the greatest lap number within `laps`. -/
def isMaxLapIn (laps : List RawLap) (l : RawLap) : Bool :=
  laps.all fun l2 => l2.lapNumber ≤ l.lapNumber

/-- A lap with a recorded lap time — a completed lap. -/
def completedLaps (laps : List RawLap) : List RawLap :=
  laps.filter fun l => l.lapTime.isSome

/-- Timing selection as the claim words it (spec §4.3): for each
competitor, the lap with the highest lap number among the laps that have
a recorded lap time; competitors with no completed lap are omitted.
Stated for comparison with `processTiming`, which is the source's rule. -/
def timingClaimedSpec : List RawResult → List RawLap → List TimingEntry
  | [], _ => []
  | r :: rs, laps =>
    let comp := completedLaps (pickDriver laps r.abbreviation)
    match comp.find? (isMaxLapIn comp) with
    | none => timingClaimedSpec rs laps
    | some m => timingEntryOf r.abbreviation m :: timingClaimedSpec rs laps

/-! ## Poll Scheduler (redis_live_service.py lines 163-207, 352-360)

One iteration of `poll_live_data`, with its externally visible actions
recorded.  The provider fetch itself (`fastf1.get_session(...).load()`)
is external; the outcome records the request that would be issued. -/

structure SchedState where
  currentSession : Option SessionInfo
deriving DecidableEq, Repr

structure PollOutcome where
  /-- whether `detect_current_session` ran this cycle -/
  ranDetect : Bool
  /-- `some x` when `store_data(SESSION_KEY, x, expire=False)` happened -/
  publishedSession : Option (Option SessionInfo)
  /-- the `(year, round, session_type)` fetched from the provider -/
  fetched : Option (Int × Int × String)
  /-- whether the 300-second idle sleep ran -/
  sleptIdle : Bool
  newState : SchedState
deriving DecidableEq, Repr

/-- The detection branch of lines 166-182 followed, when the fresh state
is live, by the fetch of lines 184-202. -/
def pollDetectBranch (now : Int) (remaining : List CalEvent) : PollOutcome :=
  let d := detect_current_session now remaining
  match d with
  | some di =>
    if di.is_live then
      { ranDetect := true, publishedSession := some d,
        fetched := some (di.year, di.round, di.session_type),
        sleptIdle := false, newState := { currentSession := d } }
    else
      { ranDetect := true, publishedSession := some d, fetched := none,
        sleptIdle := true, newState := { currentSession := d } }
  | none =>
    { ranDetect := true, publishedSession := some none, fetched := none,
      sleptIdle := true, newState := { currentSession := none } }

/-- Embedding of `poll_live_data`: detection runs only when
`self.current_session` is falsy or its stored `is_live` flag is false;
once a live session dict is stored, every cycle goes straight to the
provider fetch with the stored `year`/`round`/`session_type`. -/
def poll_live_data (now : Int) (remaining : List CalEvent) (st : SchedState) : PollOutcome :=
  match st.currentSession with
  | some cs =>
    if cs.is_live then
      { ranDetect := false, publishedSession := none,
        fetched := some (cs.year, cs.round, cs.session_type),
        sleptIdle := false, newState := st }
    else pollDetectBranch now remaining
  | none => pollDetectBranch now remaining

/-- JSON encoding of the published session value: Python `None` becomes
JSON `null`; a dict serialises to an object. -/
def sessionToJ : Option SessionInfo → JVal
  | none => JVal.null
  | some i =>
    JVal.obj [("year", JVal.num i.year), ("round", JVal.num i.round),
      ("event_name", JVal.str i.event_name),
      ("session_name", JVal.str i.session_name),
      ("session_type", JVal.str i.session_type),
      ("start_time", match i.start_time with
                     | none => JVal.null
                     | some t => JVal.num t),
      ("end_time", match i.end_time with
                   | none => JVal.null
                   | some t => JVal.num t),
      ("is_live", JVal.bool i.is_live)]

/-! ## Unified Read Facade (data_service.py)

The facade's collaborators are held in one state record: whether the
SQLite connection yields a cursor, whether the Redis service constructed,
the decoded contents of the session / standings / weather cache keys, and
the historical store's answers to the two SQL queries, as oracles indexed
by the query parameter. -/

/-- One row of the historical standings query (lines 292-303). -/
structure HistStandRow where
  driver_id : Int
  full_name : String
  abbreviation : String
  team_name : String
  team_color : String
  total_points : Option Int
deriving DecidableEq, Repr

/-- The dict built per historical row, with `position = i + 1` from
`enumerate` (lines 306-315). -/
structure HistStanding where
  position : Nat
  driver_id : Int
  driver_name : String
  abbreviation : String
  team : String
  team_color : String
  points : Option Int
deriving DecidableEq, Repr

def histStandingsOf (rows : List HistStandRow) : List HistStanding :=
  rows.enum.map fun p =>
    { position := p.1 + 1, driver_id := p.2.driver_id,
      driver_name := p.2.full_name, abbreviation := p.2.abbreviation,
      team := p.2.team_name, team_color := p.2.team_color,
      points := p.2.total_points }

/-- One weather dict of the historical query (lines 528-547). -/
structure HistWeatherRow where
  time : Option Int
  air_temp : Option Int
  humidity : Option Int
  pressure : Option Int
  rainfall : Option Bool
  track_temp : Option Int
  wind_direction : Option Int
  wind_speed : Option Int
deriving DecidableEq, Repr

structure DataServiceState where
  /-- `_get_sqlite_cursor()` returns a cursor -/
  sqliteOk : Bool
  /-- `self.redis_service` is not `None` -/
  redisOk : Bool
  /-- decoded content of the session key (`get_live_session()`);
  `none` covers absent, expired and stored-null alike -/
  cachedSession : Option SessionInfo
  /-- decoded content of the standings key (`get_live_standings()`) -/
  cachedStandings : Option (List DriverData)
  /-- decoded content of the weather key (`get_live_weather()`) -/
  cachedWeather : Option NormWeather
  /-- historical standings rows per requested year -/
  histStandRows : Int → List HistStandRow
  /-- historical weather rows per requested session id -/
  histWeatherRows : Int → List HistWeatherRow

/-- Embedding of `F1DataService.get_current_session` (lines 85-89). -/
def get_current_session (st : DataServiceState) : Option SessionInfo :=
  if st.redisOk then st.cachedSession else none

/-- The two shapes `get_driver_standings` can return: the cached live
list, or the list built from the historical query (the bare `[]` of the
no-cursor path is the empty historical list). -/
inductive StandingsResult where
  | live (rows : List DriverData)
  | hist (rows : List HistStanding)
deriving DecidableEq, Repr

/-- Embedding of `get_driver_standings` (lines 277-319): no cursor →
`[]`; else if a session dict is cached whose `year` equals the request
(its `is_live` flag is not consulted) and the cached standings list is
truthy (non-`None`, non-empty), return it; else the historical query. -/
def get_driver_standings (st : DataServiceState) (year : Int) : StandingsResult :=
  if st.sqliteOk = false then StandingsResult.hist []
  else
    let fallback := StandingsResult.hist (histStandingsOf (st.histStandRows year))
    match get_current_session st with
    | some cs =>
      if cs.year = year ∧ st.redisOk = true then
        match st.cachedStandings with
        | some rows => if rows ≠ [] then StandingsResult.live rows else fallback
        | none => fallback
      else fallback
    | none => fallback

inductive WeatherResult where
  | live (w : NormWeather)
  | hist (rows : List HistWeatherRow)
deriving DecidableEq, Repr

/-- Embedding of `get_weather` (lines 512-551): no cursor → `[]`; else if
any session dict is cached — live or not, no comparison with the
requested `session_id` at all — and a live weather dict is cached,
return `[live_weather]`; else the historical query for `session_id`. -/
def get_weather (st : DataServiceState) (sessionId : Int) : WeatherResult :=
  if st.sqliteOk = false then WeatherResult.hist []
  else
    match get_current_session st with
    | some _ =>
      match st.cachedWeather with
      | some w => WeatherResult.live w
      | none => WeatherResult.hist (st.histWeatherRows sessionId)
    | none => WeatherResult.hist (st.histWeatherRows sessionId)

/-! ## Concrete inputs used by counterexamples and witnesses -/

def faultsExpire : Faults :=
  { dumpsFail := false, setFail := false, expireFail := true, lastUpdateFail := false }

def stOneStanding : RedisState :=
  { store := [(STANDINGS_KEY, Cell.stored (JVal.num 1))], ttl := [(STANDINGS_KEY, 1800)] }

def emptyRedis : RedisState := { store := [], ttl := [] }

def naSub : SubSession := { name := "", dateUtc := none }

/-- Event whose only dated slot is a race starting at t = 0. -/
def evBoundary : CalEvent :=
  { eventDateYear := 2024, roundNumber := 5, eventName := "Test GP", eventDate := 0,
    s1 := { name := "Race", dateUtc := some 0 }, s2 := naSub, s3 := naSub,
    s4 := naSub, s5 := naSub }

/-- Event whose first sub-session starts in 1 day but whose event date is
10 days away. -/
def evFarDate : CalEvent :=
  { eventDateYear := 2024, roundNumber := 6, eventName := "Far GP", eventDate := 864000,
    s1 := { name := "Practice 1", dateUtc := some 86400 }, s2 := naSub, s3 := naSub,
    s4 := naSub, s5 := naSub }

/-- A stored live-session dict whose window ended at t = 14400. -/
def liveStored : SessionInfo :=
  { year := 2024, round := 5, event_name := "Test GP", session_name := "Race",
    session_type := "Race", start_time := some 0, end_time := some 14400,
    is_live := true }

/-- A stored upcoming-session dict for year 2024 (not live). -/
def upcomingStored : SessionInfo :=
  { year := 2024, round := 5, event_name := "Test GP",
    session_name := "Next: Practice 1", session_type := "Practice 1",
    start_time := some 1000, end_time := none, is_live := false }

def liveRow : DriverData :=
  { position := some 1, driver_number := "1", driver_abbr := "VER",
    driver_name := "Max Verstappen", team := "Red Bull Racing",
    team_color := "3671C6", q1 := none, q2 := none, q3 := none, time := none,
    status := some "Finished", points := some 25 }

def histRow : HistStandRow :=
  { driver_id := 1, full_name := "Max Verstappen", abbreviation := "VER",
    team_name := "Red Bull Racing", team_color := "3671C6",
    total_points := some 400 }

/-- Facade state: non-live session cached for 2024, non-empty cached
standings, historical data for 2024 also present. -/
def stFacade : DataServiceState :=
  { sqliteOk := true, redisOk := true, cachedSession := some upcomingStored,
    cachedStandings := some [liveRow], cachedWeather := none,
    histStandRows := fun _ => [histRow], histWeatherRows := fun _ => [] }

/-- Same facade state with a cached `Live` session. -/
def stFacadeLive : DataServiceState :=
  { stFacade with cachedSession := some liveStored }

def liveWeatherRec : NormWeather :=
  { air_temp := some 25, track_temp := some 41, humidity := some 48,
    pressure := some 1013, wind_speed := some 3, wind_direction := some 180,
    rainfall := false, timestamp := some 5000 }

def histWRow : HistWeatherRow :=
  { time := some 100, air_temp := some 18, humidity := some 70,
    pressure := some 1008, rainfall := some true, track_temp := some 22,
    wind_direction := some 90, wind_speed := some 6 }

/-- Facade state for the weather claim: non-live session cached, live
weather cached, historical weather present for every session id. -/
def stWeather : DataServiceState :=
  { sqliteOk := true, redisOk := true, cachedSession := some upcomingStored,
    cachedStandings := none, cachedWeather := some liveWeatherRec,
    histStandRows := fun _ => [], histWeatherRows := fun _ => [histWRow] }

def rawOk : RawResult :=
  { position := RawField.val 1, driverNumber := "1", abbreviation := "VER",
    fullName := "Max Verstappen", teamName := "Red Bull Racing",
    teamColor := "3671C6", q1 := none, q2 := none, q3 := none, time := none,
    status := some "Finished", points := RawField.val 25 }

/-- A competitor whose `Points` cell is present but unparseable:
`float(result['Points'])` raises. -/
def rawBadPoints : RawResult :=
  { rawOk with
    abbreviation := "PER", fullName := "Sergio Perez",
    driverNumber := "11", points := RawField.malformed }

/-- A competitor whose `Points` cell is missing (NA). -/
def rawNaPoints : RawResult :=
  { rawOk with
    abbreviation := "TSU", fullName := "Yuki Tsunoda",
    driverNumber := "22", points := RawField.na }

/-- Raw session where exactly one competitor's record is malformed. -/
def sessOneBad : RawSession :=
  { results := [rawBadPoints, rawOk], laps := [], weather := [], trackStatus := [] }

/-- Raw session where every record converts (one has NA points). -/
def sessAllOk : RawSession :=
  { results := [rawOk, rawNaPoints], laps := [], weather := [], trackStatus := [] }

/-- A completed lap (lap 4, with a recorded time). -/
def lapFour : RawLap :=
  { driverAbbr := "VER", lapNumber := 4, lapTime := some "0 days 00:01:31.2",
    sector1 := some "29.1", sector2 := some "31.4", sector3 := some "30.7",
    isPersonalBest := some true, compound := some "SOFT", tyreLife := some 4,
    trackStatus := some "1", stint := some 1, freshTyre := some false }

/-- The in-progress lap 5: highest lap number, no recorded time yet. -/
def lapFive : RawLap :=
  { lapFour with
    lapNumber := 5, lapTime := none, sector1 := some "29.3",
    sector2 := none, sector3 := none, isPersonalBest := some false,
    tyreLife := some 5 }

/-! ## Helper lemmas -/

theorem lookupKey_setKey_self {α : Type} (l : List (String × α)) (k : String) (v : α) :
    lookupKey (setKey l k v) k = some v := by
  induction l with
  | nil => simp [setKey, lookupKey]
  | cons p rest ih =>
    obtain ⟨k0, v0⟩ := p
    by_cases h : k0 = k
    · simp [setKey, lookupKey, h]
    · simp [setKey, lookupKey, h, ih]

theorem lookupKey_setKey_other {α : Type} (l : List (String × α)) (k k2 : String) (v : α)
    (h : k2 ≠ k) : lookupKey (setKey l k v) k2 = lookupKey l k2 := by
  have hk : ¬k = k2 := fun hh => h hh.symm
  induction l with
  | nil => simp [setKey, lookupKey, hk]
  | cons p rest ih =>
    obtain ⟨k0, v0⟩ := p
    by_cases h0 : k0 = k
    · subst h0
      simp [setKey, lookupKey, hk]
    · by_cases h1 : k0 = k2
      · simp [setKey, lookupKey, h0, h1, h]
      · simp [setKey, lookupKey, h0, h1, ih]

theorem store_data_noFaults_fst (t : Nat) (st : RedisState) (key : String)
    (data : JVal) (expire : Bool) :
    (store_data noFaults t st key data expire).1 = true := by
  cases expire <;> simp [store_data, noFaults]

theorem store_data_noFaults_store (t : Nat) (st : RedisState) (key : String)
    (data : JVal) (expire : Bool) :
    (store_data noFaults t st key data expire).2.store =
      setKey (setKey st.store key (Cell.stored data)) LAST_UPDATE_KEY
        (Cell.stored (JVal.str (toString t))) := by
  cases expire <;> simp [store_data, noFaults, redisSet, redisExpire]

theorem get_data_after_store (t : Nat) (st : RedisState) (key : String)
    (data : JVal) (expire : Bool) (hk : key ≠ LAST_UPDATE_KEY) :
    get_data (store_data noFaults t st key data expire).2 key =
      match data with
      | JVal.null => none
      | v => some v := by
  rw [get_data, store_data_noFaults_store, lookupKey_setKey_other _ _ _ _ hk,
    lookupKey_setKey_self]

theorem get_data_last_update_after_store (t : Nat) (st : RedisState) (key : String)
    (data : JVal) (expire : Bool) :
    get_data (store_data noFaults t st key data expire).2 LAST_UPDATE_KEY =
      some (JVal.str (toString t)) := by
  rw [get_data, store_data_noFaults_store, lookupKey_setKey_self]

/-! ## Claim C8 (Snapshot Cache put atomicity) -/

/-- C8, counterexample to the claim as stated.  With a failure injected
into the `EXPIRE` call (the `SET` having succeeded), `store_data` reports
failure, yet the category's stored record has already been replaced by
the new value — the claimed "failure implies the previously stored record
is unchanged" is false. -/
theorem c8_cex :
    (store_data faultsExpire 0 stOneStanding STANDINGS_KEY (JVal.num 2) true).1 = false ∧
    lookupKey (store_data faultsExpire 0 stOneStanding STANDINGS_KEY (JVal.num 2) true).2.store
        STANDINGS_KEY = some (Cell.stored (JVal.num 2)) :=
  ⟨rfl, rfl⟩

/-- C8, amended: `put` either fully replaces the record and reports
success, or reports failure; a failure in serialization or in the initial
`SET` leaves the store unchanged, but once the `SET` has succeeded the
record is replaced even if a later step (`EXPIRE` or the last-update
write) fails and makes the call report failure. -/
theorem c8_amended (f : Faults) (t : Nat) (st : RedisState) (key : String)
    (data : JVal) (expire : Bool) (hk : key ≠ LAST_UPDATE_KEY) :
    ((store_data f t st key data expire).1 = true →
        lookupKey (store_data f t st key data expire).2.store key
          = some (Cell.stored data)) ∧
    (f.dumpsFail = true ∨ f.setFail = true →
        (store_data f t st key data expire).1 = false ∧
        (store_data f t st key data expire).2 = st) ∧
    (f.dumpsFail = false → f.setFail = false →
        lookupKey (store_data f t st key data expire).2.store key
          = some (Cell.stored data)) := by
  obtain ⟨fd, fs, fe, fu⟩ := f
  refine ⟨?_, ?_, ?_⟩
  · intro h
    cases fd <;> cases fs <;> cases fe <;> cases fu <;> cases expire <;>
      simp_all [store_data, redisSet, redisExpire] <;>
      rw [lookupKey_setKey_other _ _ _ _ hk] <;>
      exact lookupKey_setKey_self _ _ _
  · intro h
    rcases h with h | h <;> cases fd <;> cases fs <;>
      simp_all [store_data]
  · intro hd hs
    subst hd; subst hs
    cases fe <;> cases fu <;> cases expire <;>
      simp [store_data, redisSet, redisExpire] <;>
      first
        | exact lookupKey_setKey_self _ _ _
        | (rw [lookupKey_setKey_other _ _ _ _ hk]; exact lookupKey_setKey_self _ _ _)

/-- C8 witness: the amended theorem applied to a concrete faultless call. -/
theorem c8_amended_witness :
    lookupKey (store_data noFaults 7 stOneStanding STANDINGS_KEY (JVal.num 2) true).2.store
        STANDINGS_KEY = some (Cell.stored (JVal.num 2)) :=
  (c8_amended noFaults 7 stOneStanding STANDINGS_KEY (JVal.num 2) true
    (by decide)).2.2 rfl rfl

/-! ## Claim C9 (Snapshot Cache put idempotence) -/

/-- C9: performing the same `put(category, X, ttl)` twice in succession
leaves the value observed by `get(category)` identical to performing it
once; only the global freshness timestamp advances to the second write's
clock. -/
theorem c9_idempotent (t1 t2 : Nat) (st : RedisState) (key : String)
    (data : JVal) (expire : Bool) (hk : key ≠ LAST_UPDATE_KEY) :
    get_data (store_data noFaults t2
        (store_data noFaults t1 st key data expire).2 key data expire).2 key =
      get_data (store_data noFaults t1 st key data expire).2 key ∧
    get_data (store_data noFaults t2
        (store_data noFaults t1 st key data expire).2 key data expire).2 LAST_UPDATE_KEY =
      some (JVal.str (toString t2)) := by
  constructor
  · rw [get_data_after_store _ _ _ _ _ hk, get_data_after_store _ _ _ _ _ hk]
  · rw [get_data_last_update_after_store]

/-- C9 witness at a concrete category, record and pair of clocks. -/
theorem c9_idempotent_witness :
    get_data (store_data noFaults 2
        (store_data noFaults 1 emptyRedis STANDINGS_KEY (JVal.num 7) true).2
        STANDINGS_KEY (JVal.num 7) true).2 STANDINGS_KEY =
      get_data (store_data noFaults 1 emptyRedis STANDINGS_KEY (JVal.num 7) true).2
        STANDINGS_KEY :=
  (c9_idempotent 1 2 emptyRedis STANDINGS_KEY (JVal.num 7) true (by decide)).1

/-! ## Claim C10 (stored null / empty string indistinguishable from absent) -/

/-- C10: `get_data` returns `None` alike for an absent key, a stored JSON
`null` and a stored empty string; hence after the scheduler detects no
session and publishes `None` to the session key, `get_live_session()`
returns `None` exactly as if nothing had ever been published. -/
theorem c10_null_absent (st stA stE : RedisState) (key : String) (t : Nat)
    (tnow : Int) (cal : List CalEvent) (sched : SchedState)
    (hk : key ≠ LAST_UPDATE_KEY) :
    get_data (store_data noFaults t st key JVal.null false).2 key = none ∧
    (lookupKey stA.store key = none → get_data stA key = none) ∧
    (lookupKey stE.store key = some Cell.emptyStr → get_data stE key = none) ∧
    (sched.currentSession = none → detect_current_session tnow cal = none →
      (poll_live_data tnow cal sched).publishedSession = some none ∧
      sessionToJ none = JVal.null ∧
      get_live_session (store_data noFaults t st SESSION_KEY (sessionToJ none) false).2
        = none) := by
  refine ⟨?_, ?_, ?_, ?_⟩
  · rw [get_data_after_store _ _ _ _ _ hk]
  · intro h; rw [get_data, h]
  · intro h; rw [get_data, h]
  · intro h1 h2
    refine ⟨?_, rfl, ?_⟩
    · simp [poll_live_data, h1, pollDetectBranch, h2]
    · rw [get_live_session, sessionToJ,
        get_data_after_store _ _ _ _ _ (by decide : SESSION_KEY ≠ LAST_UPDATE_KEY)]

/-- C10 witness: concrete cache states and an empty calendar. -/
theorem c10_null_absent_witness :
    get_data (store_data noFaults 0 emptyRedis SESSION_KEY JVal.null false).2
        SESSION_KEY = none ∧
    (poll_live_data 0 [] { currentSession := none }).publishedSession = some none :=
  ⟨(c10_null_absent emptyRedis emptyRedis emptyRedis SESSION_KEY 0 0 []
      { currentSession := none } (by decide)).1,
   ((c10_null_absent emptyRedis emptyRedis emptyRedis SESSION_KEY 0 0 []
      { currentSession := none } (by decide)).2.2.2 rfl rfl).1⟩

/-! ## Claim C5 (poll loop liveness re-evaluation) -/

/-- C5, counterexample to the claim as stated.  The scheduler holds a
live session whose window `[0, 14400]` is long past at `now = 1000000`,
yet the poll cycle does not re-run session detection and still issues the
provider fetch for that session — the claimed re-evaluation of liveness
before fetching does not happen. -/
theorem c5_cex :
    (poll_live_data 1000000 [] { currentSession := some liveStored }).ranDetect = false ∧
    (poll_live_data 1000000 [] { currentSession := some liveStored }).fetched
      = some (2024, 5, "Race") ∧
    liveStored.end_time = some 14400 :=
  ⟨rfl, rfl, rfl⟩

/-- C5, amended: liveness is re-evaluated only when the stored session is
absent or non-live.  Once a session dict with `is_live = true` is stored,
every subsequent cycle skips detection and fetches provider data for that
session with its stored year/round/type, regardless of the wall-clock
time — the stored flag is never invalidated by the passage of time. -/
theorem c5_amended (now : Int) (cal : List CalEvent) (st : SchedState)
    (cs : SessionInfo) (h1 : st.currentSession = some cs) (h2 : cs.is_live = true) :
    (poll_live_data now cal st).ranDetect = false ∧
    (poll_live_data now cal st).fetched = some (cs.year, cs.round, cs.session_type) ∧
    (poll_live_data now cal st).newState = st := by
  simp [poll_live_data, h1, h2]

/-- C5 witness: a live stored session far past its window. -/
theorem c5_amended_witness :
    (poll_live_data 1000001 [] { currentSession := some liveStored }).ranDetect = false ∧
    (poll_live_data 1000001 [] { currentSession := some liveStored }).fetched
      = some (liveStored.year, liveStored.round, liveStored.session_type) ∧
    (poll_live_data 1000001 [] { currentSession := some liveStored }).newState
      = { currentSession := some liveStored } :=
  c5_amended 1000001 [] { currentSession := some liveStored } liveStored rfl rfl

/-! ## Detector lemmas -/

theorem findLiveSlot_cons_skip (now : Int) (s : SubSession) (rest : List SubSession)
    (h : inWindowClosed now s = false) :
    findLiveSlot now (s :: rest) = findLiveSlot now rest := by
  cases hd : s.dateUtc with
  | none => simp [findLiveSlot, hd]
  | some d =>
    have hw : ¬(d ≤ now ∧ now ≤ d + fourHours) := by
      intro hw
      simp [inWindowClosed, hd, hw.1, hw.2] at h
    simp [findLiveSlot, hd, hw]

theorem findLiveSlot_cons_hit (now : Int) (s : SubSession) (rest : List SubSession)
    (d : Int) (hd : s.dateUtc = some d) (h1 : d ≤ now) (h2 : now ≤ d + fourHours) :
    findLiveSlot now (s :: rest) = some (s, d) := by
  simp [findLiveSlot, hd, h1, h2]

theorem findLiveSlot_append_skip (now : Int) (pre l : List SubSession)
    (h : ∀ s2 ∈ pre, inWindowClosed now s2 = false) :
    findLiveSlot now (pre ++ l) = findLiveSlot now l := by
  induction pre with
  | nil => rfl
  | cons s rest ih =>
    rw [List.cons_append,
      findLiveSlot_cons_skip now s (rest ++ l) (h s (List.mem_cons_self s rest))]
    exact ih fun s2 hs2 => h s2 (List.mem_cons_of_mem s hs2)

theorem findLiveSlot_none_of_all_skip (now : Int) (l : List SubSession)
    (h : ∀ s2 ∈ l, inWindowClosed now s2 = false) :
    findLiveSlot now l = none := by
  have h2 := findLiveSlot_append_skip now l [] h
  simpa using h2

/-! ## Claim C3 (detector live window) -/

/-- C3, counterexample to the claim as stated.  At `now` equal to exactly
`start_time + 4h` (start 0, now 14400) the claim requires the result not
to be `Live` for that sub-session, but the detector's test
`now <= session_end` is inclusive and still returns the live state. -/
theorem c3_cex :
    detect_current_session 14400 [evBoundary] =
      some { year := 2024, round := 5, event_name := "Test GP",
             session_name := "Race", session_type := "Race",
             start_time := some 0, end_time := some 14400, is_live := true } := by
  decide

/-- C3, amended: the detector returns `Live` referencing the first
sub-session of the nearest event (in slot order, NaT slots skipped) whose
closed window `[start_time, start_time + 4h]` contains `now`; when no
slot's closed window contains `now`, the result is never `Live`.  At
`now = start_time + 4h` the slot still matches. -/
theorem c3_amended (now : Int) (e : CalEvent) (rest : List CalEvent) :
    (∀ pre s post d, slots e = pre ++ s :: post →
        (∀ s2 ∈ pre, inWindowClosed now s2 = false) →
        s.dateUtc = some d → d ≤ now → now ≤ d + fourHours →
        detect_current_session now (e :: rest) = some (liveFrom e s d)) ∧
    ((∀ s2 ∈ slots e, inWindowClosed now s2 = false) →
        ∀ r, detect_current_session now (e :: rest) = some r → r.is_live = false) := by
  constructor
  · intro pre s post d hsl hpre hd hle hge
    have hf : findLiveSlot now (slots e) = some (s, d) := by
      rw [hsl, findLiveSlot_append_skip now pre _ hpre,
        findLiveSlot_cons_hit now s post d hd hle hge]
    simp [detect_current_session, hf]
  · intro hall r hr
    have hf : findLiveSlot now (slots e) = none :=
      findLiveSlot_none_of_all_skip now _ hall
    rw [detect_current_session] at hr
    simp only [hf] at hr
    by_cases hc : e.eventDate - now ≤ twoDays
    · rw [if_pos hc] at hr
      have h2 := Option.some.inj hr
      rw [← h2]
      rfl
    · rw [if_neg hc] at hr
      exact Option.noConfusion hr

/-- C3 witness: the amended theorem applied inside the window. -/
theorem c3_amended_witness :
    detect_current_session 100 [evBoundary] =
      some (liveFrom evBoundary evBoundary.s1 0) :=
  (c3_amended 100 evBoundary []).1 [] evBoundary.s1
    [evBoundary.s2, evBoundary.s3, evBoundary.s4, evBoundary.s5] 0
    rfl (by decide) rfl (by decide) (by decide)

/-! ## Claim C7 (detector upcoming / no-session rule) -/

/-- C7, counterexample to the claim as stated.  The first sub-session of
the nearest event starts in 1 day (86400 ≤ 2 days), no slot window
contains `now = 0`, so the claim requires `Upcoming`; but the source
tests the event date (10 days away) instead and returns no session. -/
theorem c7_cex :
    evFarDate.s1.dateUtc = some 86400 ∧ (86400 : Int) - 0 ≤ twoDays ∧
    (∀ s2 ∈ slots evFarDate, inWindowClosed 0 s2 = false) ∧
    detect_current_session 0 [evFarDate] = none := by
  decide

/-- C7, amended: with no slot window containing `now`, the detector
returns `Upcoming` referencing the nearest event's first sub-session slot
exactly when the event's date satisfies `event_date - now <= 2 days` (a
test on the event date, not on the first sub-session's start, and one
that also fires for event dates already past); otherwise `NoSession`.  An
empty remaining calendar always yields `NoSession`, and NaT sub-session
slots are skipped without error. -/
theorem c7_amended (now : Int) (e : CalEvent) (rest : List CalEvent) :
    detect_current_session now [] = none ∧
    ((∀ s2 ∈ slots e, inWindowClosed now s2 = false) →
      (e.eventDate - now ≤ twoDays →
        detect_current_session now (e :: rest) = some (upcomingFrom e)) ∧
      (twoDays < e.eventDate - now →
        detect_current_session now (e :: rest) = none)) := by
  refine ⟨rfl, ?_⟩
  intro hall
  have hf : findLiveSlot now (slots e) = none :=
    findLiveSlot_none_of_all_skip now _ hall
  constructor
  · intro hc
    simp [detect_current_session, hf, hc]
  · intro hc
    simp [detect_current_session, hf, not_le.mpr hc]

/-- C7 witness: an event date within 2 days yields the upcoming state. -/
theorem c7_amended_witness :
    detect_current_session 1000000 [evFarDate] = some (upcomingFrom evFarDate) :=
  ((c7_amended 1000000 evFarDate []).2 (by decide)).1 (by decide)

/-! ## Claim C2 (standings fallback priority) -/

/-- C2, counterexample to the claim as stated.  The cached SessionState
is the upcoming dict (`is_live = false`) for year 2024, yet
`get_driver_standings(2024)` returns the cached standings record — the
claimed converse ("the cached record is only returned when the cached
SessionState is `Live`") is false: the code never consults `is_live`. -/
theorem c2_cex :
    upcomingStored.is_live = false ∧
    stFacade.cachedSession = some upcomingStored ∧
    get_driver_standings stFacade 2024 = StandingsResult.live [liveRow] := by
  refine ⟨rfl, rfl, ?_⟩
  decide

/-- C2, amended: provided the historical store's cursor is available, the
cached standings record is returned verbatim — never the historical query
result — exactly when a SessionState of any kind (its `is_live` flag is
not consulted) is cached with `year` equal to the request and the cached
standings list is non-empty; in particular this holds when that
SessionState is `Live`.  Without the cursor the facade returns the empty
list without consulting the cache. -/
theorem c2_amended (st : DataServiceState) (year : Int) :
    (st.sqliteOk = true → ∀ cs rows, get_current_session st = some cs →
        cs.year = year → st.cachedStandings = some rows → rows ≠ [] →
        get_driver_standings st year = StandingsResult.live rows) ∧
    (∀ rows, get_driver_standings st year = StandingsResult.live rows →
        st.sqliteOk = true ∧ st.redisOk = true ∧
        (∃ cs, st.cachedSession = some cs ∧ cs.year = year) ∧
        st.cachedStandings = some rows ∧ rows ≠ []) := by
  constructor
  · intro hsq cs rows hcs hyear hrows hne
    cases hb : st.redisOk with
    | false =>
      rw [get_current_session, hb] at hcs
      exact absurd hcs (by simp)
    | true =>
      have hcs2 : st.cachedSession = some cs := by
        rw [get_current_session, hb] at hcs
        simpa using hcs
      simp [get_driver_standings, get_current_session, hsq, hb, hcs2, hyear,
        hrows, hne]
  · intro rows h
    cases hsq : st.sqliteOk with
    | false => simp [get_driver_standings, hsq] at h
    | true =>
      cases hb : st.redisOk with
      | false => simp [get_driver_standings, get_current_session, hsq, hb] at h
      | true =>
        cases hcs : st.cachedSession with
        | none => simp [get_driver_standings, get_current_session, hsq, hb, hcs] at h
        | some cs =>
          by_cases hy : cs.year = year
          · cases hst : st.cachedStandings with
            | none =>
              simp [get_driver_standings, get_current_session, hsq, hb, hcs,
                hy, hst] at h
            | some rows0 =>
              by_cases hne : rows0 = []
              · subst hne
                simp [get_driver_standings, get_current_session, hsq, hb, hcs,
                  hy, hst] at h
              · have h2 : rows0 = rows := by
                  have h3 := h
                  simp [get_driver_standings, get_current_session, hsq, hb, hcs,
                    hy, hst, hne] at h3
                  exact h3
                subst h2
                exact ⟨rfl, rfl, ⟨cs, rfl, hy⟩, rfl, hne⟩
          · simp [get_driver_standings, get_current_session, hsq, hb, hcs, hy] at h

/-- C2 witness: with a cached `Live` SessionState for 2024 and a
non-empty cached standings record, the cached record is returned even
though historical rows for 2024 exist. -/
theorem c2_amended_witness :
    get_driver_standings stFacadeLive 2024 = StandingsResult.live [liveRow] :=
  (c2_amended stFacadeLive 2024).1 rfl liveStored [liveRow] rfl rfl rfl
    (by simp)

/-! ## Claim C6 (weather fallback matching) -/

/-- C6, counterexample to the claim as stated.  The cached SessionState
is not `Live` (`is_live = false`) and no comparison with the requested
session identifier 999 is made, yet `get_weather(999)` returns the live
cached weather instead of the historical rows that exist for session
999 — the claimed "only when a `Live` SessionState is cached and it
matches the requested year/session" is false. -/
theorem c6_cex :
    upcomingStored.is_live = false ∧
    stWeather.histWeatherRows 999 = [histWRow] ∧
    get_weather stWeather 999 = WeatherResult.live liveWeatherRec := by
  refine ⟨rfl, rfl, ?_⟩
  decide

/-- C6, amended: provided the historical store's cursor is available,
live cached weather is returned exactly when any SessionState is cached —
live or not, with no year or session matching — and a live weather record
is present; otherwise the historical store's rows for the requested
session identifier are returned.  The two sources are never mixed: the
result is either the single live record or the historical row list. -/
theorem c6_amended (st : DataServiceState) (sid : Int) :
    (st.sqliteOk = true → ∀ cs, get_current_session st = some cs →
        ∀ w, st.cachedWeather = some w →
        get_weather st sid = WeatherResult.live w) ∧
    (∀ w, get_weather st sid = WeatherResult.live w →
        st.sqliteOk = true ∧ st.redisOk = true ∧
        st.cachedSession ≠ none ∧ st.cachedWeather = some w) ∧
    (st.sqliteOk = true → get_current_session st = none →
        get_weather st sid = WeatherResult.hist (st.histWeatherRows sid)) := by
  refine ⟨?_, ?_, ?_⟩
  · intro hsq cs hcs w hw
    cases hb : st.redisOk with
    | false =>
      rw [get_current_session, hb] at hcs
      exact absurd hcs (by simp)
    | true =>
      have hcs2 : st.cachedSession = some cs := by
        rw [get_current_session, hb] at hcs
        simpa using hcs
      simp [get_weather, get_current_session, hsq, hb, hcs2, hw]
  · intro w h
    cases hsq : st.sqliteOk with
    | false => simp [get_weather, hsq] at h
    | true =>
      cases hb : st.redisOk with
      | false => simp [get_weather, get_current_session, hsq, hb] at h
      | true =>
        cases hcs : st.cachedSession with
        | none => simp [get_weather, get_current_session, hsq, hb, hcs] at h
        | some cs =>
          cases hw : st.cachedWeather with
          | none => simp [get_weather, get_current_session, hsq, hb, hcs, hw] at h
          | some w0 =>
            have h2 : w0 = w := by
              have h3 := h
              simp [get_weather, get_current_session, hsq, hb, hcs, hw] at h3
              exact h3
            subst h2
            exact ⟨rfl, rfl, by simp, rfl⟩
  · intro hsq hcs
    simp [get_weather, hsq, hcs]

/-- C6 witness: no cached SessionState means the historical rows for the
requested session are returned. -/
theorem c6_amended_witness :
    get_weather { stWeather with cachedSession := none } 999
      = WeatherResult.hist [histWRow] :=
  (c6_amended { stWeather with cachedSession := none } 999).2.2 rfl rfl

/-! ## Transformer lemmas -/

theorem normalizeResult_ok (r : RawResult)
    (h1 : r.position ≠ RawField.malformed) (h2 : r.points ≠ RawField.malformed) :
    normalizeResult r = Except.ok (normalizeTotal r) := by
  cases hp : r.position <;> cases hq : r.points <;>
    simp_all [normalizeResult, convNum, normalizeTotal, toOpt]

theorem normalizeResult_err (r : RawResult)
    (h : r.position = RawField.malformed ∨ r.points = RawField.malformed) :
    normalizeResult r = Except.error () := by
  rcases h with h | h
  · simp [normalizeResult, convNum, h]
  · cases hp : r.position <;> simp [normalizeResult, convNum, hp, h]

theorem processStandings_ok (rs : List RawResult)
    (h : ∀ r ∈ rs, r.position ≠ RawField.malformed ∧ r.points ≠ RawField.malformed) :
    processStandings rs = Except.ok (rs.map normalizeTotal) := by
  induction rs with
  | nil => rfl
  | cons a as ih =>
    have ha := h a (List.mem_cons_self a as)
    have has := ih fun r hr => h r (List.mem_cons_of_mem a hr)
    simp [processStandings, normalizeResult_ok a ha.1 ha.2, has]

theorem processStandings_err (rs : List RawResult)
    (h : ∃ r ∈ rs, r.position = RawField.malformed ∨ r.points = RawField.malformed) :
    processStandings rs = Except.error () := by
  induction rs with
  | nil =>
    obtain ⟨r, hr, _⟩ := h
    cases hr
  | cons a as ih =>
    obtain ⟨r, hr, hm⟩ := h
    rcases List.mem_cons.mp hr with heq | hr2
    · subst heq
      simp [processStandings, normalizeResult_err r hm]
    · cases hn : normalizeResult a with
      | error e => simp [processStandings, hn]
      | ok d => simp [processStandings, hn, ih ⟨r, hr2, hm⟩]

theorem foldl_laterLap_mem (xs : List RawLap) :
    ∀ b : RawLap, xs.foldl laterLap b = b ∨ xs.foldl laterLap b ∈ xs := by
  induction xs with
  | nil => intro b; left; rfl
  | cons x xs ih =>
    intro b
    rcases ih (laterLap b x) with h | h
    · rw [List.foldl_cons, h]
      unfold laterLap
      by_cases hc : b.lapNumber < x.lapNumber
      · rw [if_pos hc]
        exact Or.inr (List.mem_cons_self x xs)
      · rw [if_neg hc]
        exact Or.inl rfl
    · rw [List.foldl_cons]
      exact Or.inr (List.mem_cons_of_mem x h)

theorem foldl_laterLap_ge_init (xs : List RawLap) :
    ∀ b : RawLap, b.lapNumber ≤ (xs.foldl laterLap b).lapNumber := by
  induction xs with
  | nil => intro b; exact le_refl _
  | cons x xs ih =>
    intro b
    rw [List.foldl_cons]
    refine le_trans ?_ (ih (laterLap b x))
    unfold laterLap
    by_cases hc : b.lapNumber < x.lapNumber
    · rw [if_pos hc]; exact le_of_lt hc
    · rw [if_neg hc]

theorem foldl_laterLap_ge_mem (xs : List RawLap) :
    ∀ (b x : RawLap), x ∈ xs → x.lapNumber ≤ (xs.foldl laterLap b).lapNumber := by
  induction xs with
  | nil => intro b x hx; cases hx
  | cons y ys ih =>
    intro b x hx
    rw [List.foldl_cons]
    rcases List.mem_cons.mp hx with heq | hx2
    · subst heq
      refine le_trans ?_ (foldl_laterLap_ge_init ys (laterLap b x))
      unfold laterLap
      by_cases hc : b.lapNumber < x.lapNumber
      · rw [if_pos hc]
      · rw [if_neg hc]; exact le_of_not_lt hc
    · exact ih (laterLap b y) x hx2

theorem lastLap_mem (laps : List RawLap) (m : RawLap) (h : lastLap laps = some m) :
    m ∈ laps := by
  cases laps with
  | nil => cases h
  | cons l ls =>
    have h2 := Option.some.inj h
    rcases foldl_laterLap_mem ls l with h3 | h3
    · rw [h2] at h3
      rw [h3]
      exact List.mem_cons_self l ls
    · rw [h2] at h3
      exact List.mem_cons_of_mem l h3

theorem lastLap_ge (laps : List RawLap) (m : RawLap) (h : lastLap laps = some m) :
    ∀ l2 ∈ laps, l2.lapNumber ≤ m.lapNumber := by
  cases laps with
  | nil => cases h
  | cons l ls =>
    intro l2 hl2
    have h2 := Option.some.inj h
    rw [← h2]
    rcases List.mem_cons.mp hl2 with heq | hl3
    · subst heq
      exact foldl_laterLap_ge_init ls l2
    · exact foldl_laterLap_ge_mem ls l l2 hl3

theorem lastLap_ne_none (laps : List RawLap) (m : RawLap)
    (h : lastLap laps = some m) : laps ≠ [] := by
  intro he
  subst he
  cases h

theorem processTiming_mem (results : List RawResult) (laps : List RawLap)
    (r : RawResult) (m : RawLap) (hr : r ∈ results)
    (hm : lastLap (pickDriver laps r.abbreviation) = some m) :
    timingEntryOf r.abbreviation m ∈ processTiming results laps := by
  induction results with
  | nil => cases hr
  | cons a as ih =>
    rcases List.mem_cons.mp hr with heq | hr2
    · subst heq
      simp [processTiming, hm]
    · cases hl : lastLap (pickDriver laps a.abbreviation) with
      | none =>
        simp only [processTiming, hl]
        exact ih hr2
      | some ll =>
        simp only [processTiming, hl]
        exact List.mem_cons_of_mem _ (ih hr2)

theorem processTiming_abbr_has_laps (results : List RawResult) (laps : List RawLap)
    (e : TimingEntry) (he : e ∈ processTiming results laps) :
    pickDriver laps e.driver_abbr ≠ [] := by
  induction results with
  | nil => cases he
  | cons a as ih =>
    cases hl : lastLap (pickDriver laps a.abbreviation) with
    | none =>
      simp only [processTiming, hl] at he
      exact ih he
    | some ll =>
      simp only [processTiming, hl] at he
      rcases List.mem_cons.mp he with heq | he2
      · subst heq
        exact lastLap_ne_none _ ll hl
      · exact ih he2

/-! ## Claim C1 (transformer skips malformed competitor records) -/

/-- C1, counterexample to the claim as stated.  In a result set with two
competitors where exactly one (`rawBadPoints`) has an unparseable points
cell, the claim requires normalized rows for the other competitor
(`rawOk`) still to be published; but the raising conversion aborts the
single try of `_process_live_session`, and nothing is published for any
competitor or any category — the snapshot is left untouched. -/
theorem c1_cex : process_live_session sessOneBad emptySnap = emptySnap := by
  decide

/-- C1, amended: a competitor record whose numeric cells are merely
missing (NA) is normalized with nulls and every competitor gets a row;
but a record whose `Position` or `Points` cell raises on conversion
aborts the whole snapshot — the exception is caught at the snapshot
level and nothing at all is published for that cycle, neither for the
remaining competitors nor for any category. -/
theorem c1_amended (s : RawSession) (snap : LiveSnapshot) :
    ((∀ r ∈ s.results,
        r.position ≠ RawField.malformed ∧ r.points ≠ RawField.malformed) →
      (process_live_session s snap).standings = some (s.results.map normalizeTotal) ∧
      (process_live_session s snap).timing = some (processTiming s.results s.laps)) ∧
    ((∃ r ∈ s.results,
        r.position = RawField.malformed ∨ r.points = RawField.malformed) →
      process_live_session s snap = snap) := by
  constructor
  · intro h
    rw [process_live_session, processStandings_ok s.results h]
    cases processWeather s.weather <;> cases processStatus s.trackStatus <;> simp
  · intro h
    rw [process_live_session, processStandings_err s.results h]

/-- C1 witness: a result set whose two records convert (one with NA
points) yields one standings row per competitor. -/
theorem c1_amended_witness :
    (process_live_session sessAllOk emptySnap).standings
      = some (sessAllOk.results.map normalizeTotal) :=
  ((c1_amended sessAllOk emptySnap).1 (by decide)).1

/-! ## Claim C4 (timing reports most recently completed lap) -/

/-- C4, counterexample to the claim as stated.  Driver VER has a
completed lap 4 and an in-progress lap 5 with no recorded time.  The
claim requires the timing entry to report lap 4 (the highest lap number
with a recorded lap time, as `timingClaimedSpec` computes); the code
reports lap 5 with a null lap time. -/
theorem c4_cex :
    processTiming [rawOk] [lapFour, lapFive] = [timingEntryOf "VER" lapFive] ∧
    (timingEntryOf "VER" lapFive).lap_time = none ∧
    timingClaimedSpec [rawOk] [lapFour, lapFive] = [timingEntryOf "VER" lapFour] ∧
    processTiming [rawOk] [lapFour, lapFive]
      ≠ timingClaimedSpec [rawOk] [lapFour, lapFive] := by
  decide

/-- C4, amended: for each competitor of the result set, the timing
snapshot reports the lap with the highest lap number among all of that
competitor's laps — whether or not a lap time is recorded; a missing lap
time is published as null; only a competitor with no laps at all is
omitted from the cycle's timing list. -/
theorem c4_amended (results : List RawResult) (laps : List RawLap) :
    (∀ r ∈ results, ∀ m, lastLap (pickDriver laps r.abbreviation) = some m →
        timingEntryOf r.abbreviation m ∈ processTiming results laps ∧
        m ∈ pickDriver laps r.abbreviation ∧
        ∀ l2 ∈ pickDriver laps r.abbreviation, l2.lapNumber ≤ m.lapNumber) ∧
    (∀ r ∈ results, pickDriver laps r.abbreviation = [] →
        ∀ e ∈ processTiming results laps, e.driver_abbr ≠ r.abbreviation) := by
  constructor
  · intro r hr m hm
    exact ⟨processTiming_mem results laps r m hr hm,
      lastLap_mem _ m hm, lastLap_ge _ m hm⟩
  · intro r hr hempty e he heq
    have h2 := processTiming_abbr_has_laps results laps e he
    rw [heq] at h2
    exact h2 hempty

/-- C4 witness: the in-progress lap 5 (no recorded time) is the reported
lap for VER, and it is maximal among all of VER's laps. -/
theorem c4_amended_witness :
    timingEntryOf "VER" lapFive ∈ processTiming [rawOk] [lapFour, lapFive] ∧
    lapFive ∈ pickDriver [lapFour, lapFive] "VER" ∧
    ∀ l2 ∈ pickDriver [lapFour, lapFive] "VER", l2.lapNumber ≤ lapFive.lapNumber :=
  (c4_amended [rawOk] [lapFour, lapFive]).1 rawOk
    (List.mem_cons_self rawOk []) lapFive (by decide)

end F1Live
